import Mathlib

/-
  Verification of the ghostty surface-registry bridge
  (src/src/native/src/ghostty_bridge.h).

  The repository ships only the header declarations; the method bodies
  (ghostty_bridge.mm) are not present. Every operation below is therefore
  modelled from the specification's contracts (spec.md §3, §4.1, §4.2,
  §4.3, §7), keeping the header's names, field defaults
  (initialized_ = false, nextSurfaceId_ = 1, app_/config_ = nullptr,
  empty surfaces_ map) and signatures.

  Opaque C/Objective-C values (NSView*, ghostty_surface_t, the runtime
  app/config handles, std::function callback slots, void* userdata) are
  modelled as natural-number tokens; absence (nullptr / empty
  std::function) is Option.none. The C++ float fontSize is modelled as a
  rational number: the only semantics the spec assigns to it is the sign
  test "fontSize <= 0 means use runtime default", which rationals capture
  exactly. The external runtime's possible failures (ghostty_init,
  surface construction) enter the model as explicit Option/Bool inputs.
-/

namespace Ghostty

/-- Modelled from the spec: the seven independent, optional event sinks of
the callback set (`SurfaceCallbacks`, header lines 27-35). Each
`std::function` slot is an opaque token; `none` is an empty slot (absent
callback, event silently dropped). -/
structure SurfaceCallbacks where
  onTitleChanged : Option Nat
  onPwdChanged : Option Nat
  onBell : Option Nat
  onCellSize : Option Nat
  onCloseRequested : Option Nat
  onOpenUrl : Option Nat
  onRender : Option Nat
deriving DecidableEq, Repr

/-- The all-empty callback set (default-constructed `SurfaceCallbacks`). -/
def SurfaceCallbacks.empty : SurfaceCallbacks :=
  ⟨none, none, none, none, none, none, none⟩

/-- Modelled from the spec: one Surface Record (`Surface`, header lines
38-44): identity, runtime-level surface handle, native view reference,
callback set, opaque user context. -/
structure Surface where
  id : Nat
  handle : Nat
  view : Nat
  callbacks : SurfaceCallbacks
  userdata : Nat
deriving DecidableEq, Repr

/-- Modelled from the spec: the singleton bridge state (`GhosttyBridge`
private fields, header lines 157-162): initialized flag, owned runtime
app/config handles, the surface registry map, and the identity
allocator. The field `inited` stands for the header's `initialized_`,
`app` for `app_`, `config` for `config_`, `surfaces` for `surfaces_`
(the `std::unordered_map<uint32_t, Surface>`, modelled as an association
list with unique keys), and `nextSurfaceId` for `nextSurfaceId_`. -/
structure GhosttyBridge where
  inited : Bool
  app : Option Nat
  config : Option Nat
  surfaces : List (Nat × Surface)
  nextSurfaceId : Nat
deriving DecidableEq, Repr

/-- The state at process start: flag false, null handles, empty registry,
allocator at 1 (the header's in-class initializers). -/
def initialBridge : GhosttyBridge :=
  ⟨false, none, none, [], 1⟩

/-- Lookup in the registry map (`unordered_map::find`). -/
def lookupSurface : List (Nat × Surface) → Nat → Option Surface
  | [], _ => none
  | (k, s) :: rest, i => if k = i then some s else lookupSurface rest i

/-- Erase from the registry map (`unordered_map::erase`). -/
def eraseSurface : List (Nat × Surface) → Nat → List (Nat × Surface)
  | [], _ => []
  | (k, s) :: rest, i =>
      if k = i then eraseSurface rest i else (k, s) :: eraseSurface rest i

/-- In-place update of one record's callback set. -/
def setCallbacksMap : List (Nat × Surface) → Nat → SurfaceCallbacks →
    List (Nat × Surface)
  | [], _, _ => []
  | (k, s) :: rest, i, cbs =>
      if k = i then (k, { s with callbacks := cbs }) :: setCallbacksMap rest i cbs
      else (k, s) :: setCallbacksMap rest i cbs

/-- Modelled from the spec: `init()` (spec §4.3) — fails (returns false)
if already initialized or if the underlying runtime construction fails
(the exogenous `runtimeOk` input); on success sets the initialized flag
and constructs the runtime app/config handles. Returns the C++ boolean
result together with the post state; on failure no partial state is
retained. -/
def init (b : GhosttyBridge) (runtimeOk : Bool) : Bool × GhosttyBridge :=
  if b.inited then (false, b)
  else if runtimeOk then
    (true, { b with inited := true, app := some 1, config := some 1 })
  else (false, b)

/-- `isInitialized()`: pure query of the flag. -/
def isInitialized (b : GhosttyBridge) : Bool :=
  b.inited

/-- Modelled from the spec: `shutdown()` (spec §4.3) — no-op if not
initialized; otherwise destroys every live record (`shutdownAll()`),
releases the runtime app/config handles and clears the initialized
flag. The identity allocator is not reset: identities are process-unique
and the allocator only increments (spec §3). -/
def shutdown (b : GhosttyBridge) : GhosttyBridge :=
  if b.inited then
    { b with inited := false, app := none, config := none, surfaces := [] }
  else b

/-- What the runtime is asked to use as the starting font size when a
surface is constructed. -/
inductive RuntimeFontSize
  | useDefault
  | explicitSize (q : ℚ)
deriving DecidableEq, Repr

/-- Modelled from the spec: the font-size parameter handed to the runtime
surface constructor — "font size ≤ 0 means use runtime default"
(spec §4.1, header line 65). -/
def fontSizeRequest (fontSize : ℚ) : RuntimeFontSize :=
  if fontSize ≤ 0 then RuntimeFontSize.useDefault
  else RuntimeFontSize.explicitSize fontSize

/-- Result of a `createSurface` call: the returned uint32 identity (0 on
failure), the post state, and the font-size request the runtime-level
surface constructor received (`none` when the runtime was never asked,
i.e. the bridge was not initialized). -/
structure CreateResult where
  retId : Nat
  bridge : GhosttyBridge
  sentFontSize : Option RuntimeFontSize
deriving DecidableEq, Repr

/-- Modelled from the spec: `createSurface` (spec §4.1 `create`, header
lines 63-72) — returns 0 and performs no insertion if the singleton is
not initialized or the runtime fails to create the underlying surface
(the exogenous `runtimeSurface` input: `none` = construction failed,
`some h` = the runtime-level handle); otherwise allocates the next
identity, inserts a Surface Record with empty callbacks, increments the
allocator, and returns the identity. -/
def createSurface (b : GhosttyBridge) (runtimeSurface : Option Nat)
    (view : Nat) (scaleFactor : ℚ) (fontSize : ℚ)
    (cwd shell : String) : CreateResult :=
  if b.inited then
    match runtimeSurface with
    | none => ⟨0, b, some (fontSizeRequest fontSize)⟩
    | some h =>
        let i := b.nextSurfaceId
        let s : Surface := ⟨i, h, view, SurfaceCallbacks.empty, 0⟩
        ⟨i, { b with surfaces := (i, s) :: b.surfaces, nextSurfaceId := i + 1 },
         some (fontSizeRequest fontSize)⟩
  else ⟨0, b, none⟩

/-- Modelled from the spec: `destroySurface` (spec §4.1 `destroy`) —
idempotent; removes the record (releasing the runtime handle) and
invokes no user callbacks; unknown identity is a no-op. -/
def destroySurface (b : GhosttyBridge) (i : Nat) : GhosttyBridge :=
  { b with surfaces := eraseSurface b.surfaces i }

/-- Modelled from the spec: `getSurface` (header lines 119-120) — O(1)
lookup, `nullptr` (here `none`) if not found. -/
def getSurface (b : GhosttyBridge) (i : Nat) : Option Surface :=
  lookupSurface b.surfaces i

/-- Modelled from the spec: `setCallbacks` (spec §4.1) — replaces the full
callback set of the matching record; unknown identity is a silent
no-op. -/
def setCallbacks (b : GhosttyBridge) (i : Nat) (cbs : SurfaceCallbacks) :
    GhosttyBridge :=
  { b with surfaces := setCallbacksMap b.surfaces i cbs }

/-- Modelled from the spec: the surface-scoped action kinds the Action
Dispatcher routes (spec §4.2 step 1: title/bell/pwd/cell-size/
close-request/open-url/render). -/
inductive SurfaceAction
  | titleChanged (title : String)
  | pwdChanged (pwd : String)
  | bell
  | cellSize (w h : Nat)
  | closeRequested
  | openUrl (url : String)
  | render
deriving DecidableEq, Repr

/-- The callback-set slot that corresponds to an action kind. -/
def callbackFor (cbs : SurfaceCallbacks) : SurfaceAction → Option Nat
  | SurfaceAction.titleChanged _ => cbs.onTitleChanged
  | SurfaceAction.pwdChanged _ => cbs.onPwdChanged
  | SurfaceAction.bell => cbs.onBell
  | SurfaceAction.cellSize _ _ => cbs.onCellSize
  | SurfaceAction.closeRequested => cbs.onCloseRequested
  | SurfaceAction.openUrl _ => cbs.onOpenUrl
  | SurfaceAction.render => cbs.onRender

/-- Outcome of one dispatch: either exactly one callback token was
invoked for the resolved identity, or the event was dropped (target not
in the registry, or its callback slot is absent). No outcome propagates
an error or aborts. -/
inductive DispatchResult
  | invoked (i cb : Nat)
  | droppedNoCallback
  | droppedNotFound
deriving DecidableEq, Repr

/-- Modelled from the spec: `handleAction` for surface-scoped actions
(spec §4.2 steps 1-2, header lines 154-155) — resolve the target
identity in the registry; if it no longer exists, drop the event (not an
error); if found, invoke the corresponding optional callback, an absent
callback dropping silently. Dispatch does not mutate the registry. -/
def handleAction (b : GhosttyBridge) (i : Nat) (a : SurfaceAction) :
    DispatchResult :=
  match getSurface b i with
  | none => DispatchResult.droppedNotFound
  | some s =>
      match callbackFor s.callbacks a with
      | none => DispatchResult.droppedNoCallback
      | some cb => DispatchResult.invoked i cb

/-- Events of the locking model: acquisition/release of the single shared
`mutex_` (header line 161), an access to the registry or singleton
state, and the invocation of a user callback. -/
inductive LockEv
  | acquire
  | release
  | registryAccess
  | invokeCallback (cb : Nat)
deriving DecidableEq, Repr

/-- Lock-discipline check over an event trace, carrying the current lock
depth: a release needs the lock held, every registry/singleton access
happens with the lock held, and every user-callback invocation happens
with the lock fully released (spec §5). -/
def wellLocked : Nat → List LockEv → Bool
  | _, [] => true
  | d, LockEv.acquire :: r => wellLocked (d + 1) r
  | d, LockEv.release :: r => decide (0 < d) && wellLocked (d - 1) r
  | d, LockEv.registryAccess :: r => decide (0 < d) && wellLocked d r
  | d, LockEv.invokeCallback _ :: r => decide (d = 0) && wellLocked d r

/-- Lock depth after processing a trace, starting from a given depth. -/
def finalDepth : Nat → List LockEv → Nat
  | d, [] => d
  | d, LockEv.acquire :: r => finalDepth (d + 1) r
  | d, LockEv.release :: r => finalDepth (d - 1) r
  | d, LockEv.registryAccess :: r => finalDepth d r
  | d, LockEv.invokeCallback _ :: r => finalDepth d r

/-- Modelled from the spec: the lock/event trace of every registry or
singleton operation other than dispatch (create/destroy/lookup/
setCallbacks/init/shutdown and the per-surface forwarding calls): take
the shared mutex, read or mutate the guarded state, release (spec §5:
no method reads/writes either without holding it, and none of these
invokes a user callback). -/
def registryOpTrace : List LockEv :=
  [LockEv.acquire, LockEv.registryAccess, LockEv.release]

/-- Modelled from the spec: the lock/event trace of one action dispatch —
the matching record is looked up under the lock, its callback copied,
the lock released, and only then the callback invoked (spec §5, §9). -/
def handleActionTrace (b : GhosttyBridge) (i : Nat) (a : SurfaceAction) :
    List LockEv :=
  match handleAction b i a with
  | DispatchResult.invoked _ cb =>
      [LockEv.acquire, LockEv.registryAccess, LockEv.release,
       LockEv.invokeCallback cb]
  | _ => [LockEv.acquire, LockEv.registryAccess, LockEv.release]

/-- One call of the embedding application or the runtime against the
bridge, with the exogenous runtime success/failure inputs made
explicit. -/
inductive Op
  | opInit (runtimeOk : Bool)
  | opShutdown
  | opCreate (runtimeSurface : Option Nat) (view : Nat)
      (scaleFactor fontSize : ℚ) (cwd shell : String)
  | opDestroy (i : Nat)
  | opSetCallbacks (i : Nat) (cbs : SurfaceCallbacks)
deriving DecidableEq

/-- The state transition of one call (results discarded). -/
def applyOp (b : GhosttyBridge) : Op → GhosttyBridge
  | Op.opInit ok => (init b ok).2
  | Op.opShutdown => shutdown b
  | Op.opCreate rs v sc fs cwd sh => (createSurface b rs v sc fs cwd sh).bridge
  | Op.opDestroy i => destroySurface b i
  | Op.opSetCallbacks i cbs => setCallbacks b i cbs

/-- Run a sequence of calls from a state. -/
def runOps (b : GhosttyBridge) : List Op → GhosttyBridge
  | [] => b
  | op :: rest => runOps (applyOp b op) rest

/-- The identities returned by the successful `createSurface` calls of a
sequence, in call order (failed creates return 0 and are omitted). -/
def createdIds (b : GhosttyBridge) : List Op → List Nat
  | [] => []
  | op :: rest =>
      (match op with
       | Op.opCreate rs v sc fs cwd sh =>
           if (createSurface b rs v sc fs cwd sh).retId = 0 then []
           else [(createSurface b rs v sc fs cwd sh).retId]
       | _ => []) ++ createdIds (applyOp b op) rest

/-- The state invariant of the bridge: the allocator is at least 1,
every registry entry maps a non-zero key below the allocator to a record
whose id field equals the key, the keys are pairwise distinct, and an
uninitialized bridge has an empty registry. -/
def Inv (b : GhosttyBridge) : Prop :=
  1 ≤ b.nextSurfaceId ∧
  (∀ p ∈ b.surfaces, p.2.id = p.1 ∧ p.1 ≠ 0 ∧ p.1 < b.nextSurfaceId) ∧
  (b.surfaces.map Prod.fst).Nodup ∧
  (b.inited = false → b.surfaces = [])

/-- A concrete demonstration run: init, two creates, destroy the first
surface, one more create. -/
def demoOps : List Op :=
  [Op.opInit true,
   Op.opCreate (some 7) 10 2 12 "" "",
   Op.opCreate (some 8) 11 2 12 "" "",
   Op.opDestroy 1,
   Op.opCreate (some 9) 12 2 12 "" ""]

/-- The prefix of `demoOps` before the destroy. -/
def demoPre : List Op :=
  [Op.opInit true,
   Op.opCreate (some 7) 10 2 12 "" "",
   Op.opCreate (some 8) 11 2 12 "" ""]

/-- The suffix of `demoOps` after the destroy. -/
def demoPost : List Op :=
  [Op.opCreate (some 9) 12 2 12 "" ""]

/-- A concrete state with two live surfaces (identities 1 and 2). -/
def demoTwo : GhosttyBridge :=
  (createSurface
    (createSurface (init initialBridge true).2 (some 7) 10 2 12 "" "").bridge
    (some 8) 11 2 12 "" "").bridge

/-- A concrete, partially populated callback set. -/
def demoCbs : SurfaceCallbacks :=
  ⟨some 1, none, some 2, none, none, none, some 3⟩

theorem lookupSurface_eraseSurface_self (m : List (Nat × Surface)) (i : Nat) :
    lookupSurface (eraseSurface m i) i = none := by
  induction m with
  | nil => rfl
  | cons p rest ih =>
      obtain ⟨k, s⟩ := p
      by_cases hk : k = i
      · simpa [eraseSurface, hk] using ih
      · simpa [eraseSurface, lookupSurface, hk] using ih

theorem eraseSurface_idem (m : List (Nat × Surface)) (i : Nat) :
    eraseSurface (eraseSurface m i) i = eraseSurface m i := by
  induction m with
  | nil => rfl
  | cons p rest ih =>
      obtain ⟨k, s⟩ := p
      by_cases hk : k = i
      · simpa [eraseSurface, hk] using ih
      · simp [eraseSurface, hk, ih]

theorem eraseSurface_of_lookup_none (m : List (Nat × Surface)) (i : Nat)
    (h : lookupSurface m i = none) : eraseSurface m i = m := by
  induction m with
  | nil => rfl
  | cons p rest ih =>
      obtain ⟨k, s⟩ := p
      by_cases hk : k = i
      · simp [lookupSurface, hk] at h
      · simp only [lookupSurface, if_neg hk] at h
        simp [eraseSurface, hk, ih h]

theorem mem_eraseSurface (m : List (Nat × Surface)) (i : Nat)
    (p : Nat × Surface) (h : p ∈ eraseSurface m i) : p ∈ m := by
  induction m with
  | nil => simpa [eraseSurface] using h
  | cons q rest ih =>
      obtain ⟨k, s⟩ := q
      by_cases hk : k = i
      · simp only [eraseSurface, if_pos hk] at h
        exact List.mem_cons_of_mem _ (ih h)
      · simp only [eraseSurface, if_neg hk, List.mem_cons] at h
        rcases h with h | h
        · exact h ▸ List.mem_cons_self _ _
        · exact List.mem_cons_of_mem _ (ih h)

theorem map_fst_eraseSurface_sublist (m : List (Nat × Surface)) (i : Nat) :
    ((eraseSurface m i).map Prod.fst).Sublist (m.map Prod.fst) := by
  induction m with
  | nil => simp [eraseSurface]
  | cons q rest ih =>
      obtain ⟨k, s⟩ := q
      by_cases hk : k = i
      · simp only [eraseSurface, if_pos hk, List.map_cons]
        exact ih.cons k
      · simp only [eraseSurface, if_neg hk, List.map_cons]
        exact ih.cons₂ k

theorem lookupSurface_mem (m : List (Nat × Surface)) (i : Nat) (s : Surface)
    (h : lookupSurface m i = some s) : (i, s) ∈ m := by
  induction m with
  | nil => simp [lookupSurface] at h
  | cons q rest ih =>
      obtain ⟨k, t⟩ := q
      by_cases hk : k = i
      · simp only [lookupSurface, if_pos hk] at h
        subst hk
        obtain rfl : t = s := Option.some_injective _ h
        exact List.mem_cons_self _ _
      · simp only [lookupSurface, if_neg hk] at h
        exact List.mem_cons_of_mem _ (ih h)

theorem lookupSurface_setCallbacksMap_self (m : List (Nat × Surface))
    (i : Nat) (cbs : SurfaceCallbacks) (s : Surface)
    (h : lookupSurface m i = some s) :
    lookupSurface (setCallbacksMap m i cbs) i = some { s with callbacks := cbs } := by
  induction m with
  | nil => simp [lookupSurface] at h
  | cons q rest ih =>
      obtain ⟨k, t⟩ := q
      by_cases hk : k = i
      · simp only [lookupSurface, if_pos hk] at h
        obtain rfl : t = s := Option.some_injective _ h
        simp [setCallbacksMap, lookupSurface, if_pos hk]
      · simp only [lookupSurface, if_neg hk] at h
        simp [setCallbacksMap, lookupSurface, if_neg hk, ih h]

theorem lookupSurface_setCallbacksMap_ne (m : List (Nat × Surface))
    (i j : Nat) (cbs : SurfaceCallbacks) (hne : j ≠ i) :
    lookupSurface (setCallbacksMap m i cbs) j = lookupSurface m j := by
  induction m with
  | nil => rfl
  | cons q rest ih =>
      obtain ⟨k, t⟩ := q
      by_cases hk : k = i
      · subst hk
        simp [setCallbacksMap, lookupSurface, Ne.symm hne, ih]
      · by_cases hkj : k = j
        · subst hkj
          simp [setCallbacksMap, lookupSurface, hne, ih]
        · simp [setCallbacksMap, lookupSurface, hk, hkj, ih]

theorem setCallbacksMap_of_lookup_none (m : List (Nat × Surface))
    (i : Nat) (cbs : SurfaceCallbacks) (h : lookupSurface m i = none) :
    setCallbacksMap m i cbs = m := by
  induction m with
  | nil => rfl
  | cons q rest ih =>
      obtain ⟨k, t⟩ := q
      by_cases hk : k = i
      · simp [lookupSurface, hk] at h
      · simp only [lookupSurface, if_neg hk] at h
        simp [setCallbacksMap, hk, ih h]

theorem mem_setCallbacksMap (m : List (Nat × Surface)) (i : Nat)
    (cbs : SurfaceCallbacks) (p : Nat × Surface)
    (h : p ∈ setCallbacksMap m i cbs) :
    ∃ q ∈ m, p.1 = q.1 ∧ p.2.id = q.2.id := by
  induction m with
  | nil => simpa [setCallbacksMap] using h
  | cons q rest ih =>
      obtain ⟨k, t⟩ := q
      by_cases hk : k = i
      · simp only [setCallbacksMap, if_pos hk, List.mem_cons] at h
        rcases h with h | h
        · exact ⟨(k, t), List.mem_cons_self _ _, by simp [h]⟩
        · obtain ⟨q, hq, h1, h2⟩ := ih h
          exact ⟨q, List.mem_cons_of_mem _ hq, h1, h2⟩
      · simp only [setCallbacksMap, if_neg hk, List.mem_cons] at h
        rcases h with h | h
        · exact ⟨(k, t), List.mem_cons_self _ _, by simp [h]⟩
        · obtain ⟨q, hq, h1, h2⟩ := ih h
          exact ⟨q, List.mem_cons_of_mem _ hq, h1, h2⟩

theorem map_fst_setCallbacksMap (m : List (Nat × Surface)) (i : Nat)
    (cbs : SurfaceCallbacks) :
    (setCallbacksMap m i cbs).map Prod.fst = m.map Prod.fst := by
  induction m with
  | nil => rfl
  | cons q rest ih =>
      obtain ⟨k, t⟩ := q
      by_cases hk : k = i
      · simp [setCallbacksMap, hk, ih]
      · simp [setCallbacksMap, hk, ih]

theorem inv_initialBridge : Inv initialBridge := by
  refine ⟨le_refl 1, ?_, ?_, ?_⟩ <;> simp [initialBridge]

theorem inv_init (b : GhosttyBridge) (ok : Bool) (h : Inv b) :
    Inv (init b ok).2 := by
  obtain ⟨h1, h2, h3, h4⟩ := h
  by_cases hb : b.inited
  · simpa [init, hb] using ⟨h1, h2, h3, h4⟩
  · by_cases hok : ok
    · simp only [init, hb, hok, if_false, if_true, Bool.false_eq_true]
      exact ⟨h1, h2, h3, by simp⟩
    · simpa [init, hb, hok] using ⟨h1, h2, h3, h4⟩

theorem inv_shutdown (b : GhosttyBridge) (h : Inv b) : Inv (shutdown b) := by
  obtain ⟨h1, h2, h3, h4⟩ := h
  by_cases hb : b.inited
  · refine ⟨?_, ?_, ?_, ?_⟩ <;> simp [shutdown, hb]
    exact h1
  · simpa [shutdown, hb] using ⟨h1, h2, h3, h4⟩

theorem inv_createSurface (b : GhosttyBridge) (rs : Option Nat) (v : Nat)
    (sc fs : ℚ) (cwd sh : String) (h : Inv b) :
    Inv (createSurface b rs v sc fs cwd sh).bridge := by
  obtain ⟨h1, h2, h3, h4⟩ := h
  by_cases hb : b.inited
  · cases rs with
    | none => simpa [createSurface, hb] using ⟨h1, h2, h3, h4⟩
    | some hd =>
        simp only [createSurface, hb, if_true]
        refine ⟨?_, ?_, ?_, ?_⟩
        · exact Nat.le_succ_of_le h1
        · intro p hp
          rcases List.mem_cons.mp hp with hp | hp
          · subst hp
            exact ⟨rfl, by omega, Nat.lt_succ_self _⟩
          · obtain ⟨e1, e2, e3⟩ := h2 p hp
            exact ⟨e1, e2, Nat.lt_succ_of_lt e3⟩
        · simp only [List.map_cons, List.nodup_cons]
          refine ⟨?_, h3⟩
          intro hmem
          obtain ⟨p, hp, hpe⟩ := List.mem_map.mp hmem
          obtain ⟨_, _, e3⟩ := h2 p hp
          omega
        · intro hf
          exact absurd hf (by simp [hb])
  · simpa [createSurface, hb] using ⟨h1, h2, h3, h4⟩

theorem inv_destroySurface (b : GhosttyBridge) (i : Nat) (h : Inv b) :
    Inv (destroySurface b i) := by
  obtain ⟨h1, h2, h3, h4⟩ := h
  refine ⟨h1, ?_, ?_, ?_⟩
  · intro p hp
    exact h2 p (mem_eraseSurface _ _ _ hp)
  · exact h3.sublist (map_fst_eraseSurface_sublist _ _)
  · intro hf
    show eraseSurface b.surfaces i = []
    rw [h4 hf]
    rfl

theorem inv_setCallbacks (b : GhosttyBridge) (i : Nat)
    (cbs : SurfaceCallbacks) (h : Inv b) : Inv (setCallbacks b i cbs) := by
  obtain ⟨h1, h2, h3, h4⟩ := h
  refine ⟨h1, ?_, ?_, ?_⟩
  · intro p hp
    obtain ⟨q, hq, e1, e2⟩ := mem_setCallbacksMap _ _ _ _ hp
    obtain ⟨f1, f2, f3⟩ := h2 q hq
    exact ⟨by rw [e2, e1, f1], by rw [e1]; exact f2, by rw [e1]; exact f3⟩
  · show ((setCallbacksMap b.surfaces i cbs).map Prod.fst).Nodup
    rw [map_fst_setCallbacksMap]
    exact h3
  · intro hf
    show setCallbacksMap b.surfaces i cbs = []
    rw [h4 hf]
    rfl

theorem inv_applyOp (b : GhosttyBridge) (op : Op) (h : Inv b) :
    Inv (applyOp b op) := by
  cases op with
  | opInit ok => exact inv_init b ok h
  | opShutdown => exact inv_shutdown b h
  | opCreate rs v sc fs cwd sh => exact inv_createSurface b rs v sc fs cwd sh h
  | opDestroy i => exact inv_destroySurface b i h
  | opSetCallbacks i cbs => exact inv_setCallbacks b i cbs h

theorem inv_runOps (b : GhosttyBridge) (ops : List Op) (h : Inv b) :
    Inv (runOps b ops) := by
  induction ops generalizing b with
  | nil => exact h
  | cons op rest ih => exact ih _ (inv_applyOp b op h)

theorem nextSurfaceId_applyOp (b : GhosttyBridge) (op : Op) :
    b.nextSurfaceId ≤ (applyOp b op).nextSurfaceId := by
  cases op with
  | opInit ok =>
      show b.nextSurfaceId ≤ (init b ok).2.nextSurfaceId
      unfold init
      split
      · exact le_refl _
      · split <;> exact le_refl _
  | opShutdown =>
      show b.nextSurfaceId ≤ (shutdown b).nextSurfaceId
      unfold shutdown
      split <;> exact le_refl _
  | opCreate rs v sc fs cwd sh =>
      show b.nextSurfaceId ≤ (createSurface b rs v sc fs cwd sh).bridge.nextSurfaceId
      unfold createSurface
      split
      · cases rs with
        | none => exact le_refl _
        | some hd => exact Nat.le_succ _
      · exact le_refl _
  | opDestroy i => exact le_refl _
  | opSetCallbacks i cbs => exact le_refl _

theorem nextSurfaceId_runOps (b : GhosttyBridge) (ops : List Op) :
    b.nextSurfaceId ≤ (runOps b ops).nextSurfaceId := by
  induction ops generalizing b with
  | nil => exact le_refl _
  | cons op rest ih => exact le_trans (nextSurfaceId_applyOp b op) (ih _)

theorem createSurface_retId_or (b : GhosttyBridge) (rs : Option Nat) (v : Nat)
    (sc fs : ℚ) (cwd sh : String) :
    ((createSurface b rs v sc fs cwd sh).retId = 0 ∧
     (createSurface b rs v sc fs cwd sh).bridge = b) ∨
    ((createSurface b rs v sc fs cwd sh).retId = b.nextSurfaceId ∧
     (createSurface b rs v sc fs cwd sh).bridge.nextSurfaceId =
       b.nextSurfaceId + 1) := by
  unfold createSurface
  split
  · cases rs with
    | none => exact Or.inl ⟨rfl, rfl⟩
    | some hd => exact Or.inr ⟨rfl, rfl⟩
  · exact Or.inl ⟨rfl, rfl⟩

theorem runOps_append (b : GhosttyBridge) (l1 l2 : List Op) :
    runOps b (l1 ++ l2) = runOps (runOps b l1) l2 := by
  induction l1 generalizing b with
  | nil => rfl
  | cons op rest ih => exact ih (applyOp b op)

theorem createdIds_lb (ops : List Op) (b : GhosttyBridge) :
    ∀ i ∈ createdIds b ops, b.nextSurfaceId ≤ i := by
  induction ops generalizing b with
  | nil =>
      intro i hi
      simp [createdIds] at hi
  | cons op rest ih =>
      intro i hi
      simp only [createdIds, List.mem_append] at hi
      rcases hi with hi | hi
      · cases op with
        | opCreate rs v sc fs cwd sh =>
            by_cases h0 : (createSurface b rs v sc fs cwd sh).retId = 0
            · simp [h0] at hi
            · simp only [if_neg h0, List.mem_singleton] at hi
              subst hi
              rcases createSurface_retId_or b rs v sc fs cwd sh with ⟨e, _⟩ | ⟨e, _⟩
              · exact absurd e h0
              · exact le_of_eq e.symm
        | opInit ok => simp at hi
        | opShutdown => simp at hi
        | opDestroy j => simp at hi
        | opSetCallbacks j cbs => simp at hi
      · exact le_trans (nextSurfaceId_applyOp b op) (ih (applyOp b op) i hi)

theorem createdIds_chain (ops : List Op) (b : GhosttyBridge) :
    List.Chain' (· < ·) (createdIds b ops) := by
  induction ops generalizing b with
  | nil => simp [createdIds]
  | cons op rest ih =>
      cases op with
      | opCreate rs v sc fs cwd sh =>
          by_cases h0 : (createSurface b rs v sc fs cwd sh).retId = 0
          · simpa [createdIds, h0] using ih _
          · rcases createSurface_retId_or b rs v sc fs cwd sh with ⟨e, _⟩ | ⟨e, e2⟩
            · exact absurd e h0
            · simp only [createdIds, if_neg h0, List.singleton_append]
              refine List.chain'_cons'.mpr ⟨?_, ih _⟩
              intro y hy
              have hmem := List.mem_of_mem_head? hy
              have hge := createdIds_lb rest _ y hmem
              have : (applyOp b (Op.opCreate rs v sc fs cwd sh)).nextSurfaceId =
                  b.nextSurfaceId + 1 := e2
              omega
      | opInit ok => simpa [createdIds] using ih _
      | opShutdown => simpa [createdIds] using ih _
      | opDestroy j => simpa [createdIds] using ih _
      | opSetCallbacks j cbs => simpa [createdIds] using ih _

theorem nextSurfaceId_ge_one_applyOp (b : GhosttyBridge) (op : Op)
    (h : 1 ≤ b.nextSurfaceId) : 1 ≤ (applyOp b op).nextSurfaceId :=
  le_trans h (nextSurfaceId_applyOp b op)

theorem createdIds_head (ops : List Op) (b : GhosttyBridge) (i : Nat)
    (h1 : 1 ≤ b.nextSurfaceId)
    (h : (createdIds b ops).head? = some i) : i = b.nextSurfaceId := by
  induction ops generalizing b with
  | nil => simp [createdIds] at h
  | cons op rest ih =>
      cases op with
      | opCreate rs v sc fs cwd sh =>
          by_cases h0 : (createSurface b rs v sc fs cwd sh).retId = 0
          · rcases createSurface_retId_or b rs v sc fs cwd sh with ⟨e, e2⟩ | ⟨e, e2⟩
            · simp only [createdIds, h0, if_pos, List.nil_append] at h
              have hb : applyOp b (Op.opCreate rs v sc fs cwd sh) = b := e2
              rw [hb] at h
              exact ih b h1 h
            · rw [e] at h0
              omega
          · simp only [createdIds, if_neg h0, List.singleton_append,
              List.head?_cons, Option.some_inj] at h
            rcases createSurface_retId_or b rs v sc fs cwd sh with ⟨e, _⟩ | ⟨e, _⟩
            · exact absurd e h0
            · rw [← h, e]
      | opInit ok =>
          simp only [createdIds, List.nil_append] at h
          have := ih (applyOp b (Op.opInit ok)) (nextSurfaceId_ge_one_applyOp b _ h1) h
          rw [this]
          show (init b ok).2.nextSurfaceId = b.nextSurfaceId
          unfold init
          split
          · rfl
          · split <;> rfl
      | opShutdown =>
          simp only [createdIds, List.nil_append] at h
          have := ih (applyOp b Op.opShutdown) (nextSurfaceId_ge_one_applyOp b _ h1) h
          rw [this]
          show (shutdown b).nextSurfaceId = b.nextSurfaceId
          unfold shutdown
          split <;> rfl
      | opDestroy j =>
          simp only [createdIds, List.nil_append] at h
          exact ih (applyOp b (Op.opDestroy j)) (nextSurfaceId_ge_one_applyOp b _ h1) h
      | opSetCallbacks j cbs =>
          simp only [createdIds, List.nil_append] at h
          exact ih (applyOp b (Op.opSetCallbacks j cbs)) (nextSurfaceId_ge_one_applyOp b _ h1) h

theorem wellLocked_append (t1 t2 : List LockEv) :
    ∀ d, wellLocked d t1 = true → wellLocked (finalDepth d t1) t2 = true →
      wellLocked d (t1 ++ t2) = true := by
  induction t1 with
  | nil =>
      intro d h1 h2
      exact h2
  | cons e r ih =>
      intro d h1 h2
      cases e with
      | acquire => exact ih (d + 1) h1 h2
      | release =>
          simp only [wellLocked, Bool.and_eq_true] at h1
          simp only [List.cons_append, wellLocked, Bool.and_eq_true]
          exact ⟨h1.1, ih (d - 1) h1.2 h2⟩
      | registryAccess =>
          simp only [wellLocked, Bool.and_eq_true] at h1
          simp only [List.cons_append, wellLocked, Bool.and_eq_true]
          exact ⟨h1.1, ih d h1.2 h2⟩
      | invokeCallback cb =>
          simp only [wellLocked, Bool.and_eq_true] at h1
          simp only [List.cons_append, wellLocked, Bool.and_eq_true]
          exact ⟨h1.1, ih d h1.2 h2⟩

theorem shutdown_inited_false (b : GhosttyBridge) :
    (shutdown b).inited = false := by
  unfold shutdown
  cases hb : b.inited with
  | false => simp [hb]
  | true => simp [hb]

theorem shutdown_of_not_inited (b : GhosttyBridge) (h : b.inited = false) :
    shutdown b = b := by
  unfold shutdown
  rw [h]
  simp

theorem createSurface_sentFontSize (b : GhosttyBridge) (rs : Option Nat)
    (v : Nat) (sc fs : ℚ) (cwd sh : String) :
    (createSurface b rs v sc fs cwd sh).sentFontSize = none ∨
    (createSurface b rs v sc fs cwd sh).sentFontSize =
      some (fontSizeRequest fs) := by
  unfold createSurface
  split
  · cases rs with
    | none => exact Or.inr rfl
    | some hd => exact Or.inr rfl
  · exact Or.inl rfl

/-- C1: for every sequence of bridge calls starting from the initial
state, the identities returned by successful createSurface calls are
strictly increasing in call order, pairwise distinct and non-zero, the
first successful create returns 1, and an identity whose surface is
destroyed is never returned by a later createSurface, because the
allocator only increments. -/
theorem claim1_surface_ids (ops : List Op) :
    List.Chain' (· < ·) (createdIds initialBridge ops) ∧
    (createdIds initialBridge ops).Nodup ∧
    (∀ i ∈ createdIds initialBridge ops, i ≠ 0) ∧
    (∀ i, (createdIds initialBridge ops).head? = some i → i = 1) ∧
    (∀ pre d post, ops = pre ++ Op.opDestroy d :: post →
      getSurface (runOps initialBridge pre) d ≠ none →
      d ∉ createdIds (runOps initialBridge (pre ++ [Op.opDestroy d])) post) := by
  refine ⟨createdIds_chain ops initialBridge, ?_, ?_, ?_, ?_⟩
  · exact (List.chain'_iff_pairwise.mp (createdIds_chain ops initialBridge)).imp
      fun h => Nat.ne_of_lt h
  · intro i hi
    have hle := createdIds_lb ops initialBridge i hi
    have h1 : (1 : Nat) ≤ i := hle
    omega
  · intro i h
    exact createdIds_head ops initialBridge i (le_refl 1) h
  · intro pre d post hsplit hlive
    cases hx : getSurface (runOps initialBridge pre) d with
    | none => exact absurd hx hlive
    | some s =>
        have hinv := inv_runOps initialBridge pre inv_initialBridge
        have hmem := lookupSurface_mem _ d s hx
        obtain ⟨_, _, hlt⟩ := hinv.2.1 ⟨d, s⟩ hmem
        have hlt' : d < (runOps initialBridge pre).nextSurfaceId := hlt
        intro hd
        have hrw : runOps initialBridge (pre ++ [Op.opDestroy d]) =
            destroySurface (runOps initialBridge pre) d := by
          rw [runOps_append]
          rfl
        rw [hrw] at hd
        have hge := createdIds_lb post _ d hd
        have hge' : (runOps initialBridge pre).nextSurfaceId ≤ d := hge
        omega

/-- C1 witness: in the concrete run `demoOps`, identity 1 is created,
destroyed, and never handed out again. -/
theorem claim1_surface_ids_witness :
    1 ∉ createdIds (runOps initialBridge (demoPre ++ [Op.opDestroy 1])) demoPost :=
  (claim1_surface_ids demoOps).2.2.2.2 demoPre 1 demoPost (by rfl) (by decide)

/-- C2: destroySurface removes the record, so a subsequent getSurface on
that identity reports not-found; it is idempotent, and on an unknown or
already-destroyed identity it is a no-op leaving the state unchanged. -/
theorem claim2_destroy_idempotent (b : GhosttyBridge) (i : Nat) :
    getSurface (destroySurface b i) i = none ∧
    destroySurface (destroySurface b i) i = destroySurface b i ∧
    (getSurface b i = none → destroySurface b i = b) := by
  refine ⟨lookupSurface_eraseSurface_self _ _, ?_, ?_⟩
  · show ({ b with surfaces := eraseSurface (eraseSurface b.surfaces i) i } :
        GhosttyBridge) = { b with surfaces := eraseSurface b.surfaces i }
    rw [eraseSurface_idem]
  · intro h
    show ({ b with surfaces := eraseSurface b.surfaces i } : GhosttyBridge) = b
    rw [eraseSurface_of_lookup_none _ _ h]

/-- C2 witness: destroying the unknown identity 42 in the initial state
is a no-op, and afterwards identity 42 still resolves to nothing. -/
theorem claim2_destroy_idempotent_witness :
    destroySurface initialBridge 42 = initialBridge ∧
    getSurface (destroySurface initialBridge 42) 42 = none :=
  ⟨(claim2_destroy_idempotent initialBridge 42).2.2 (by rfl),
   (claim2_destroy_idempotent initialBridge 42).1⟩

/-- C3: dispatching a surface-scoped action whose target identity is not
in the registry invokes no callback and drops the event; the dispatch
outcome is always either found-and-invoked or dropped. -/
theorem claim3_dispatch_drops_unknown (b : GhosttyBridge) (i : Nat)
    (a : SurfaceAction) (h : getSurface b i = none) :
    handleAction b i a = DispatchResult.droppedNotFound ∧
    ∀ j cb, handleAction b i a ≠ DispatchResult.invoked j cb := by
  have he : handleAction b i a = DispatchResult.droppedNotFound := by
    unfold handleAction
    rw [h]
  refine ⟨he, ?_⟩
  intro j cb hc
  rw [he] at hc
  exact DispatchResult.noConfusion hc

/-- C3 witness: a bell action aimed at the absent identity 5 of the
initial state is dropped. -/
theorem claim3_dispatch_drops_unknown_witness :
    handleAction initialBridge 5 SurfaceAction.bell =
      DispatchResult.droppedNotFound :=
  (claim3_dispatch_drops_unknown initialBridge 5 SurfaceAction.bell (by rfl)).1

/-- C4: in the lock model, every registry/singleton operation accesses the
guarded state only while holding the single shared mutex and releases it
afterwards, and action dispatch invokes the user callback only after the
lock is fully released — so a callback that re-enters the bridge (any
trace of further well-locked bridge operations) keeps the whole trace
well locked, and cannot deadlock on the mutex. -/
theorem claim4_lock_discipline (b : GhosttyBridge) (i : Nat)
    (a : SurfaceAction) :
    wellLocked 0 registryOpTrace = true ∧
    finalDepth 0 registryOpTrace = 0 ∧
    wellLocked 0 (handleActionTrace b i a) = true ∧
    finalDepth 0 (handleActionTrace b i a) = 0 ∧
    (∀ t, wellLocked 0 t = true →
      wellLocked 0 (handleActionTrace b i a ++ t) = true) := by
  have h3 : wellLocked 0 (handleActionTrace b i a) = true := by
    unfold handleActionTrace
    cases handleAction b i a <;> rfl
  have h4 : finalDepth 0 (handleActionTrace b i a) = 0 := by
    unfold handleActionTrace
    cases handleAction b i a <;> rfl
  refine ⟨by decide, by decide, h3, h4, ?_⟩
  intro t ht
  refine wellLocked_append (handleActionTrace b i a) t 0 h3 ?_
  rw [h4]
  exact ht

/-- C4 witness: a dispatch on the initial state followed by a re-entrant
registry operation from inside the callback is well locked end to end. -/
theorem claim4_lock_discipline_witness :
    wellLocked 0
      (handleActionTrace initialBridge 1 SurfaceAction.bell ++
        registryOpTrace) = true :=
  (claim4_lock_discipline initialBridge 1 SurfaceAction.bell).2.2.2.2
    registryOpTrace (by decide)

/-- C5: createSurface returns 0 and leaves the registry unchanged whenever
the bridge is not initialized or the runtime fails to construct the
underlying surface; on success it returns an identity > 0 and pushes
exactly one new record onto the registry. -/
theorem claim5_create_failure_no_insert (b : GhosttyBridge)
    (rs : Option Nat) (v : Nat) (sc fs : ℚ) (cwd sh : String)
    (h1 : 1 ≤ b.nextSurfaceId) :
    ((createSurface b rs v sc fs cwd sh).retId = 0 →
      (createSurface b rs v sc fs cwd sh).bridge = b) ∧
    (b.inited = false → (createSurface b rs v sc fs cwd sh).retId = 0) ∧
    (rs = none → (createSurface b rs v sc fs cwd sh).retId = 0) ∧
    (∀ hd, b.inited = true → rs = some hd →
      0 < (createSurface b rs v sc fs cwd sh).retId ∧
      (createSurface b rs v sc fs cwd sh).bridge.surfaces =
        ((createSurface b rs v sc fs cwd sh).retId,
         ⟨(createSurface b rs v sc fs cwd sh).retId, hd, v,
          SurfaceCallbacks.empty, 0⟩) :: b.surfaces) := by
  refine ⟨?_, ?_, ?_, ?_⟩
  · intro h0
    rcases createSurface_retId_or b rs v sc fs cwd sh with ⟨_, e2⟩ | ⟨e1, _⟩
    · exact e2
    · rw [h0] at e1
      omega
  · intro hb
    unfold createSurface
    rw [hb]
    simp
  · intro hrs
    subst hrs
    unfold createSurface
    split <;> rfl
  · intro hd hb hrs
    subst hrs
    unfold createSurface
    rw [hb]
    exact ⟨h1, rfl⟩

/-- C5 witness: on the uninitialized initial state, createSurface returns
0 and the state is unchanged. -/
theorem claim5_create_failure_no_insert_witness :
    (createSurface initialBridge (some 7) 10 2 12 "" "").bridge =
      initialBridge :=
  (claim5_create_failure_no_insert initialBridge (some 7) 10 2 12 "" ""
    (by decide)).1 (by rfl)

/-- C6: after shutdown, no identity resolves through getSurface (in
particular none that was live before); shutdown on an uninitialized
bridge is a no-op (so calling it repeatedly is safe and idempotent); and
a subsequent init succeeds independently of prior state. -/
theorem claim6_shutdown_then_reinit (ops : List Op) (i : Nat) :
    getSurface (shutdown (runOps initialBridge ops)) i = none ∧
    ((runOps initialBridge ops).inited = false →
      shutdown (runOps initialBridge ops) = runOps initialBridge ops) ∧
    shutdown (shutdown (runOps initialBridge ops)) =
      shutdown (runOps initialBridge ops) ∧
    (init (shutdown (runOps initialBridge ops)) true).1 = true := by
  have hinv := inv_runOps initialBridge ops inv_initialBridge
  refine ⟨?_, ?_, ?_, ?_⟩
  · by_cases hb : (runOps initialBridge ops).inited
    · simp [shutdown, hb, getSurface, lookupSurface]
    · have hb' : (runOps initialBridge ops).inited = false := by
        simpa using hb
      have hs := hinv.2.2.2 hb'
      rw [shutdown_of_not_inited _ hb']
      show lookupSurface (runOps initialBridge ops).surfaces i = none
      rw [hs]
      rfl
  · intro hb
    exact shutdown_of_not_inited _ hb
  · exact shutdown_of_not_inited _ (shutdown_inited_false _)
  · unfold init
    rw [shutdown_inited_false]
    simp

/-- C6 witness: after init, create and shutdown, identity 1 no longer
resolves; shutdown on the uninitialized initial state is a no-op; and
init succeeds again after the shutdown. -/
theorem claim6_shutdown_then_reinit_witness :
    getSurface
      (shutdown (runOps initialBridge
        [Op.opInit true, Op.opCreate (some 7) 10 2 12 "" ""])) 1 = none ∧
    shutdown (runOps initialBridge []) = runOps initialBridge [] ∧
    (init (shutdown (runOps initialBridge
      [Op.opInit true, Op.opCreate (some 7) 10 2 12 "" ""])) true).1 = true :=
  ⟨(claim6_shutdown_then_reinit
      [Op.opInit true, Op.opCreate (some 7) 10 2 12 "" ""] 1).1,
   (claim6_shutdown_then_reinit [] 1).2.1 (by rfl),
   (claim6_shutdown_then_reinit
      [Op.opInit true, Op.opCreate (some 7) 10 2 12 "" ""] 1).2.2.2⟩

/-- C7: init returns false when the bridge is already initialized or the
runtime construction fails, and in either failure case the state is
unchanged (no partial state); on success it returns true and sets the
initialized flag. -/
theorem claim7_init_failures (b : GhosttyBridge) (ok : Bool) :
    (b.inited = true → init b ok = (false, b)) ∧
    (ok = false → init b ok = (false, b)) ∧
    (b.inited = false → ok = true →
      (init b ok).1 = true ∧ (init b ok).2.inited = true) := by
  refine ⟨?_, ?_, ?_⟩
  · intro hb
    unfold init
    rw [hb]
    simp
  · intro hok
    subst hok
    unfold init
    split <;> simp
  · intro hb hok
    subst hok
    unfold init
    rw [hb]
    simp

/-- C7 witness: init on the fresh state succeeds and sets the flag, and a
second init on the resulting state fails leaving it unchanged. -/
theorem claim7_init_failures_witness :
    ((init initialBridge true).1 = true ∧
      (init initialBridge true).2.inited = true) ∧
    init (init initialBridge true).2 true =
      (false, (init initialBridge true).2) :=
  ⟨(claim7_init_failures initialBridge true).2.2 rfl rfl,
   (claim7_init_failures (init initialBridge true).2 true).1 (by rfl)⟩

/-- C8: setCallbacks on identity x replaces x's full callback set, leaves
every other identity's record unchanged, and on an unknown identity it
is a silent no-op that modifies no registry state. -/
theorem claim8_setCallbacks_isolated (b : GhosttyBridge) (x y : Nat)
    (cbs : SurfaceCallbacks) :
    (∀ s, getSurface b x = some s →
      getSurface (setCallbacks b x cbs) x =
        some { s with callbacks := cbs }) ∧
    (y ≠ x → getSurface (setCallbacks b x cbs) y = getSurface b y) ∧
    (getSurface b x = none → setCallbacks b x cbs = b) := by
  refine ⟨?_, ?_, ?_⟩
  · intro s hs
    exact lookupSurface_setCallbacksMap_self b.surfaces x cbs s hs
  · intro hne
    exact lookupSurface_setCallbacksMap_ne b.surfaces x y cbs hne
  · intro h
    show ({ b with surfaces := setCallbacksMap b.surfaces x cbs } :
        GhosttyBridge) = b
    rw [setCallbacksMap_of_lookup_none _ _ _ h]

/-- C8 witness: with surfaces 1 and 2 live, replacing surface 1's
callback set installs it on surface 1 and leaves surface 2's record
untouched. -/
theorem claim8_setCallbacks_isolated_witness :
    getSurface (setCallbacks demoTwo 1 demoCbs) 1 =
      some ⟨1, 7, 10, demoCbs, 0⟩ ∧
    getSurface (setCallbacks demoTwo 1 demoCbs) 2 = getSurface demoTwo 2 :=
  ⟨(claim8_setCallbacks_isolated demoTwo 1 2 demoCbs).1
      ⟨1, 7, 10, SurfaceCallbacks.empty, 0⟩ (by decide),
   (claim8_setCallbacks_isolated demoTwo 1 2 demoCbs).2.1 (by decide)⟩

/-- C9: whenever a createSurface call with fontSize ≤ 0 reaches the
runtime surface constructor, the runtime is asked to use its configured
default font size, never the non-positive value. -/
theorem claim9_fontSize_default (b : GhosttyBridge) (rs : Option Nat)
    (v : Nat) (sc fs : ℚ) (cwd sh : String) (hfs : fs ≤ 0) :
    ∀ r, (createSurface b rs v sc fs cwd sh).sentFontSize = some r →
      r = RuntimeFontSize.useDefault := by
  intro r hr
  rcases createSurface_sentFontSize b rs v sc fs cwd sh with he | he
  · rw [he] at hr
    exact Option.noConfusion hr
  · rw [he] at hr
    obtain rfl : fontSizeRequest fs = r := Option.some_injective _ hr
    unfold fontSizeRequest
    rw [if_pos hfs]

/-- C9 witness: creating a surface with fontSize = -1 on an initialized
bridge sends the use-default request to the runtime. -/
theorem claim9_fontSize_default_witness :
    fontSizeRequest (-1) = RuntimeFontSize.useDefault :=
  claim9_fontSize_default (init initialBridge true).2 (some 7) 10 2 (-1)
    "" "" (by decide) (fontSizeRequest (-1)) (by rfl)

/-- C10: in every state reachable from the initial state, each registry
entry maps a non-zero key to a record whose id field equals the key;
hence whenever getSurface returns a record, that record's id equals the
requested identity and the identity is non-zero. -/
theorem claim10_lookup_id_matches (ops : List Op) (i : Nat) (s : Surface)
    (h : getSurface (runOps initialBridge ops) i = some s) :
    s.id = i ∧ i ≠ 0 := by
  have hinv := inv_runOps initialBridge ops inv_initialBridge
  have hmem := lookupSurface_mem _ i s h
  obtain ⟨e1, e2, _⟩ := hinv.2.1 ⟨i, s⟩ hmem
  exact ⟨e1, e2⟩

/-- C10 witness: after init and one create, looking up identity 1 returns
the record whose id field is 1. -/
theorem claim10_lookup_id_matches_witness :
    (⟨1, 7, 10, SurfaceCallbacks.empty, 0⟩ : Surface).id = 1 ∧
    (1 : Nat) ≠ 0 :=
  claim10_lookup_id_matches
    [Op.opInit true, Op.opCreate (some 7) 10 2 12 "" ""] 1
    ⟨1, 7, 10, SurfaceCallbacks.empty, 0⟩ (by decide)

end Ghostty
